import Mathlib

/-!
Shallow embedding of the live monitoring core of pacman-token-manager
(Python), together with proofs of its specified behaviour.

Modules embedded:
* `src/pacman/monitoring/threshold_alert.py` — `ThresholdAlert`
* `src/pacman/ui/guidance.py` — `detect_task_type`, `get_primary_guidance`
* `src/pacman/terminal/input_handler.py` — `ActionState`
* `src/pacman/ui/simple_display.py` — the action-pending update in
  `SimpleDisplayComponent.render`
* `src/claude_monitor/ui/display_controller.py` — `SessionCalculator`
  (`calculate_time_data`, `calculate_cost_predictions`), `PacManBorder`,
  `DisplayController._check_notifications`

Python floats are modelled as exact rationals (`ℚ`), Python ints as `ℤ`
or `ℕ`, timestamps as rational minutes on a single UTC scale, and Python
sets as duplicate-free lists.
-/

namespace Pacman

/-! ## ThresholdAlert (src/pacman/monitoring/threshold_alert.py)

State: `_alerted_thresholds` (a set of rungs) and `_last_usage_pct`.
-/

/-- `ThresholdAlert.THRESHOLDS = [50, 75, 90]`. -/
def THRESHOLDS : List ℕ := [50, 75, 90]

/-- The mutable state of a `ThresholdAlert` instance:
`_alerted_thresholds` (modelled as a duplicate-free list) and
`_last_usage_pct`. -/
structure TAState where
  alerted : List ℕ
  last_usage_pct : ℚ
  deriving Repr, DecidableEq

/-- `ThresholdAlert.__init__`: empty alerted set, last percentage 0. -/
def initialTA : TAState := ⟨[], 0⟩

/-- `ThresholdAlert.reset`: clear the alerted set and zero the last
percentage. -/
def resetTA : TAState := ⟨[], 0⟩

/-- `usage_pct = (tokens_used / token_limit) * 100`, exact rational
arithmetic in place of Python float division. -/
def usagePct (tokens_used token_limit : ℤ) : ℚ :=
  ((tokens_used : ℚ) / (token_limit : ℚ)) * 100

/-- The `for threshold in self.THRESHOLDS` loop: return the first rung
`t` with `usage_pct >= t` and `t` not yet alerted. -/
def findThreshold (pct : ℚ) (alerted : List ℕ) : List ℕ → Option ℕ
  | [] => none
  | t :: rest =>
      if (t : ℚ) ≤ pct ∧ t ∉ alerted then some t
      else findThreshold pct alerted rest

/-- The drop check in `check_and_alert`:
`if usage_pct < self._last_usage_pct - 10: self.reset()`. -/
def applyReset (usage_pct : ℚ) (s : TAState) : TAState :=
  if usage_pct < s.last_usage_pct - 10 then resetTA else s

/-- `ThresholdAlert.check_and_alert` (printing elided): early-returns on
a non-positive limit, applies the drop reset, records the observed
percentage, then returns the first unalerted rung crossed (or `none`)
together with the updated state. -/
def check_and_alert (tokens_used token_limit : ℤ) (s : TAState) :
    Option ℕ × TAState :=
  if token_limit ≤ 0 then (none, s)
  else
    match findThreshold (usagePct tokens_used token_limit)
        (applyReset (usagePct tokens_used token_limit) s).alerted THRESHOLDS with
    | some t =>
        (some t, ⟨t :: (applyReset (usagePct tokens_used token_limit) s).alerted,
          usagePct tokens_used token_limit⟩)
    | none =>
        (none, ⟨(applyReset (usagePct tokens_used token_limit) s).alerted,
          usagePct tokens_used token_limit⟩)

/-- The state trace of a `ThresholdAlert` over a sequence of
`(tokens_used, token_limit)` calls, starting from the freshly
constructed state. -/
def taState (inp : ℕ → ℤ × ℤ) : ℕ → TAState
  | 0 => initialTA
  | n + 1 => (check_and_alert (inp n).1 (inp n).2 (taState inp n)).2

/-- The rung returned by the `n`-th call of the sequence. -/
def taOut (inp : ℕ → ℤ × ℤ) (n : ℕ) : Option ℕ :=
  (check_and_alert (inp n).1 (inp n).2 (taState inp n)).1

/-- The reset heuristic of `check_and_alert` triggered at call `k`:
the observed percentage is more than 10 points below the tracked
`_last_usage_pct`. -/
def resetCond (inp : ℕ → ℤ × ℤ) (k : ℕ) : Prop :=
  usagePct (inp k).1 (inp k).2 < (taState inp k).last_usage_pct - 10

/-- The spec's example call sequence: usage percentages 10, 55, 80, 95
against a limit of 100. -/
def seq4 : ℕ → ℤ × ℤ
  | 0 => (10, 100)
  | 1 => (55, 100)
  | 2 => (80, 100)
  | _ => (95, 100)

/-- Two identical calls at 80% usage: percentage is constant
(non-increasing) between them. -/
def inp80 : ℕ → ℤ × ℤ := fun _ => (80, 100)

/-- Percentages 55, then 30 (a drop of 25 > 10 points), then 55 again. -/
def dropSeq : ℕ → ℤ × ℤ
  | 0 => (55, 100)
  | 1 => (30, 100)
  | _ => (55, 100)

lemma findThreshold_not_mem {pct : ℚ} {alerted l : List ℕ} {t : ℕ}
    (h : findThreshold pct alerted l = some t) : t ∉ alerted := by
  induction l with
  | nil => simp [findThreshold] at h
  | cons a rest ih =>
    rw [findThreshold] at h
    split_ifs at h with hc
    · obtain rfl : a = t := by injection h
      exact hc.2
    · exact ih h

lemma findThreshold_eq_none {pct : ℚ} {alerted l : List ℕ} :
    findThreshold pct alerted l = none ↔
      ∀ t ∈ l, (t : ℚ) ≤ pct → t ∈ alerted := by
  induction l with
  | nil => simp [findThreshold]
  | cons a rest ih =>
    rw [findThreshold]
    split_ifs with hc
    · constructor
      · intro h; cases h
      · intro h
        exact absurd (h a (List.mem_cons_self a rest) hc.1) hc.2
    · rw [ih, List.forall_mem_cons]
      push_neg at hc
      constructor
      · intro h; exact ⟨hc, h⟩
      · intro h; exact h.2

/-- With a non-positive limit the call is an early-return no-op. -/
lemma check_nonpos {tok lim : ℤ} (s : TAState) (h : lim ≤ 0) :
    check_and_alert tok lim s = (none, s) := by
  unfold check_and_alert
  rw [if_pos h]

/-- `applyReset` without a triggering drop is the identity. -/
lemma applyReset_of_not {pct : ℚ} {s : TAState}
    (hnr : ¬ pct < s.last_usage_pct - 10) : applyReset pct s = s :=
  if_neg hnr

/-- Once a rung is in the alerted set, a call that does not trigger the
drop-reset keeps it there. -/
lemma alerted_persists {tok lim : ℤ} {s : TAState} {t : ℕ}
    (ht : t ∈ s.alerted)
    (hnr : ¬ usagePct tok lim < s.last_usage_pct - 10) :
    t ∈ (check_and_alert tok lim s).2.alerted := by
  unfold check_and_alert
  split_ifs with hlim
  · exact ht
  · rw [applyReset_of_not hnr]
    cases hf : findThreshold (usagePct tok lim) s.alerted THRESHOLDS with
    | none => exact ht
    | some u => exact List.mem_cons_of_mem u ht

/-- A call with a positive limit records the observed percentage. -/
lemma check_last {tok lim : ℤ} (s : TAState) (h : 0 < lim) :
    (check_and_alert tok lim s).2.last_usage_pct = usagePct tok lim := by
  unfold check_and_alert
  rw [if_neg (by omega : ¬ lim ≤ 0)]
  cases hf : findThreshold (usagePct tok lim)
      (applyReset (usagePct tok lim) s).alerted THRESHOLDS <;> rfl

/-- A call that returns rung `t` records `t` in the alerted set. -/
lemma out_some_mem {inp : ℕ → ℤ × ℤ} {i : ℕ} {t : ℕ}
    (h : taOut inp i = some t) : t ∈ (taState inp (i + 1)).alerted := by
  unfold taOut at h
  show t ∈ (check_and_alert (inp i).1 (inp i).2 (taState inp i)).2.alerted
  unfold check_and_alert at h ⊢
  by_cases hlim : (inp i).2 ≤ 0
  · rw [if_pos hlim] at h; simp at h
  · rw [if_neg hlim] at h ⊢
    cases hf : findThreshold (usagePct (inp i).1 (inp i).2)
        (applyReset (usagePct (inp i).1 (inp i).2) (taState inp i)).alerted
        THRESHOLDS with
    | none => rw [hf] at h; simp at h
    | some u =>
      rw [hf] at h
      simp at h
      subst h
      exact List.mem_cons_self _ _

/-- If rung `t` is alerted at call `m` and call `m + d` returns `t`
again, some call in between (inclusive) triggered the drop-reset. -/
lemma refire_needs_reset (inp : ℕ → ℤ × ℤ) (t : ℕ) :
    ∀ d m, t ∈ (taState inp m).alerted → taOut inp (m + d) = some t →
      ∃ k, m ≤ k ∧ k ≤ m + d ∧ resetCond inp k := by
  intro d
  induction d with
  | zero =>
    intro m hmem hout
    by_cases hr : resetCond inp m
    · exact ⟨m, le_refl m, by omega, hr⟩
    · exfalso
      unfold resetCond at hr
      simp only [Nat.add_zero] at hout
      unfold taOut check_and_alert at hout
      split_ifs at hout with hlim
      rw [applyReset_of_not hr] at hout
      cases hf : findThreshold (usagePct (inp m).1 (inp m).2)
          (taState inp m).alerted THRESHOLDS with
      | none => rw [hf] at hout; simp at hout
      | some u =>
        rw [hf] at hout
        simp at hout
        subst hout
        exact findThreshold_not_mem hf hmem
  | succ d ih =>
    intro m hmem hout
    by_cases hr : resetCond inp m
    · exact ⟨m, le_refl m, by omega, hr⟩
    · have hmem' : t ∈ (taState inp (m + 1)).alerted :=
        alerted_persists hmem hr
      have heq : m + 1 + d = m + (d + 1) := by omega
      obtain ⟨k, hk1, hk2, hk3⟩ := ih (m + 1) hmem' (by rw [heq]; exact hout)
      exact ⟨k, by omega, by omega, hk3⟩

/-- When all limits are positive, the tracked `_last_usage_pct` entering
call `n + 1` is the percentage observed at call `n`. -/
lemma last_eq_prev {inp : ℕ → ℤ × ℤ} (hpos : ∀ n, 0 < (inp n).2) (n : ℕ) :
    (taState inp (n + 1)).last_usage_pct = usagePct (inp n).1 (inp n).2 :=
  check_last _ (hpos n)

/-- C2: for every sequence of `check_and_alert` calls with positive
token limits, the same rung is never returned twice unless some call
strictly between the two returns (inclusive of the second) observed a
usage percentage more than 10 points below the immediately preceding
call's percentage; and on a fresh tracker the percentage sequence
10, 55, 80, 95 yields `none`, rung 50, rung 75, rung 90 in order. -/
theorem threshold_rung_once_per_episode :
    (∀ (inp : ℕ → ℤ × ℤ), (∀ n, 0 < (inp n).2) →
      ∀ i j t, i < j → taOut inp i = some t → taOut inp j = some t →
        ∃ k, i < k ∧ k ≤ j ∧
          usagePct (inp k).1 (inp k).2 <
            usagePct (inp (k - 1)).1 (inp (k - 1)).2 - 10) ∧
    taOut seq4 0 = none ∧ taOut seq4 1 = some 50 ∧
      taOut seq4 2 = some 75 ∧ taOut seq4 3 = some 90 := by
  constructor
  · intro inp hpos i j t hij hi hj
    have hmem := out_some_mem hi
    have heq : i + 1 + (j - (i + 1)) = j := by omega
    obtain ⟨k, hk1, hk2, hk3⟩ :=
      refire_needs_reset inp t (j - (i + 1)) (i + 1) hmem
        (by rw [heq]; exact hj)
    refine ⟨k, by omega, by omega, ?_⟩
    unfold resetCond at hk3
    have hlast : (taState inp k).last_usage_pct
        = usagePct (inp (k - 1)).1 (inp (k - 1)).2 := by
      have h2 := last_eq_prev hpos (k - 1)
      rwa [show k - 1 + 1 = k from by omega] at h2
    rw [hlast] at hk3
    exact hk3
  · refine ⟨?_, ?_, ?_, ?_⟩ <;>
      norm_num [taOut, taState, seq4, check_and_alert, applyReset,
        usagePct, findThreshold, initialTA, resetTA, THRESHOLDS]

/-- Witness for `threshold_rung_once_per_episode`: on the percentage
sequence 55, 30, 55 the rung 50 is returned at calls 0 and 2, so the
theorem produces the intervening >10-point drop (at call 1). -/
theorem threshold_rung_once_per_episode_witness :
    ∃ k, 0 < k ∧ k ≤ 2 ∧
      usagePct (dropSeq k).1 (dropSeq k).2 <
        usagePct (dropSeq (k - 1)).1 (dropSeq (k - 1)).2 - 10 :=
  threshold_rung_once_per_episode.1 dropSeq
    (fun n => by rcases n with _ | _ | n <;> norm_num [dropSeq])
    0 2 50 (by omega)
    (by norm_num [taOut, taState, dropSeq, check_and_alert, applyReset,
      usagePct, findThreshold, initialTA, resetTA, THRESHOLDS])
    (by norm_num [taOut, taState, dropSeq, check_and_alert, applyReset,
      usagePct, findThreshold, initialTA, resetTA, THRESHOLDS])

/-- C3 counterexample: two successive calls both at 80% of the
limit: the percentage is non-increasing between them, yet the second
call returns rung 75 (only the lowest unalerted rung is emitted per
call, so the next call picks up the next rung even without any
percentage increase). The claim says such a call returns `none`. -/
theorem threshold_nonincreasing_cex :
    usagePct (inp80 1).1 (inp80 1).2 ≤ usagePct (inp80 0).1 (inp80 0).2 ∧
      taOut inp80 1 = some 75 :=
  ⟨by norm_num [inp80, usagePct],
   by norm_num [taOut, taState, inp80, check_and_alert, applyReset,
     usagePct, findThreshold, initialTA, resetTA, THRESHOLDS]⟩

/-- C3 amended: a call whose observed percentage is less than or
equal to the previous call's returns `none` provided the previous call
itself returned `none` and the drop is at most 10 points (otherwise the
drop-reset clears the alerted set); and every call with a non-positive
token limit returns `none`. -/
theorem threshold_nonincreasing_amended :
    (∀ (s : TAState) (tok1 lim1 tok2 lim2 : ℤ),
        0 < lim1 → 0 < lim2 →
        (check_and_alert tok1 lim1 s).1 = none →
        usagePct tok2 lim2 ≤ usagePct tok1 lim1 →
        usagePct tok1 lim1 - 10 ≤ usagePct tok2 lim2 →
        (check_and_alert tok2 lim2 (check_and_alert tok1 lim1 s).2).1 = none) ∧
    (∀ (s : TAState) (tok lim : ℤ), lim ≤ 0 →
        (check_and_alert tok lim s).1 = none) := by
  constructor
  · intro s tok1 lim1 tok2 lim2 h1 h2 hnone hle hdrop
    have hnone' := hnone
    unfold check_and_alert at hnone'
    rw [if_neg (by omega : ¬ lim1 ≤ 0)] at hnone'
    cases hf : findThreshold (usagePct tok1 lim1)
        (applyReset (usagePct tok1 lim1) s).alerted THRESHOLDS with
    | some u => rw [hf] at hnone'; simp at hnone'
    | none =>
      have hstate : (check_and_alert tok1 lim1 s).2 =
          ⟨(applyReset (usagePct tok1 lim1) s).alerted, usagePct tok1 lim1⟩ := by
        unfold check_and_alert
        rw [if_neg (by omega : ¬ lim1 ≤ 0), hf]
      rw [hstate]
      unfold check_and_alert
      rw [if_neg (by omega : ¬ lim2 ≤ 0)]
      have hnr : ¬ usagePct tok2 lim2 <
          (⟨(applyReset (usagePct tok1 lim1) s).alerted,
            usagePct tok1 lim1⟩ : TAState).last_usage_pct - 10 := by
        show ¬ usagePct tok2 lim2 < usagePct tok1 lim1 - 10
        linarith
      rw [applyReset_of_not hnr]
      have hred : (⟨(applyReset (usagePct tok1 lim1) s).alerted,
          usagePct tok1 lim1⟩ : TAState).alerted =
          (applyReset (usagePct tok1 lim1) s).alerted := rfl
      rw [hred]
      have hfind2 : findThreshold (usagePct tok2 lim2)
          (applyReset (usagePct tok1 lim1) s).alerted THRESHOLDS = none := by
        rw [findThreshold_eq_none] at hf ⊢
        intro t ht hle2
        exact hf t ht (le_trans hle2 hle)
      rw [hfind2]
  · intro s tok lim h
    rw [check_nonpos s h]

/-- Witness for `threshold_nonincreasing_amended`: a fresh tracker sees
10% then 5% (non-increasing, drop ≤ 10, first call alert-free) and
stays silent, and a call with limit −3 returns `none`. -/
theorem threshold_nonincreasing_amended_witness :
    (check_and_alert 5 100 (check_and_alert 10 100 initialTA).2).1 = none ∧
      (check_and_alert 7 (-3) initialTA).1 = none :=
  ⟨threshold_nonincreasing_amended.1 initialTA 10 100 5 100
      (by norm_num) (by norm_num)
      (by norm_num [check_and_alert, applyReset, usagePct, findThreshold,
        initialTA, resetTA, THRESHOLDS])
      (by norm_num [usagePct]) (by norm_num [usagePct]),
   threshold_nonincreasing_amended.2 initialTA 7 (-3) (by norm_num)⟩

/-! ## Guidance engine (src/pacman/ui/guidance.py) -/

/-- `TaskType`: classification of the user's task. -/
inductive TaskType
  | CODING
  | PLANNING
  | UNKNOWN
  deriving DecidableEq, Repr

/-- The `Guidance` dataclass: a single recommendation. Optional fields
keep their Python `None` defaults as `none`. -/
structure Guidance where
  primary : String
  context : Option String
  urgency : String
  interactive : Bool
  suggested_model : Option String
  action_prompt : Option String
  action_command : Option String
  deriving DecidableEq, Repr

/-- Python's `needle in haystack` substring containment on strings. -/
def hasSubstr (haystack needle : String) : Bool :=
  (List.range (haystack.length + 1)).any fun i =>
    needle.isPrefixOf (String.mk (haystack.data.drop i))

/-- `CODING_KEYWORDS`. -/
def CODING_KEYWORDS : List String :=
  ["implement", "fix", "debug", "refactor", "write code", "create function",
   "add feature", "bug", "error", "failing", "broken", "test", "optimize",
   "class", "method", "function", "variable", "import", "export",
   "compile", "build", "deploy", "migrate", "database", "api"]

/-- `PLANNING_KEYWORDS`. -/
def PLANNING_KEYWORDS : List String :=
  ["how do i", "what is", "explain", "help me understand", "should i",
   "can you", "tell me", "describe", "summarize", "overview", "plan",
   "strategy", "approach", "best practice", "recommend", "suggest",
   "compare", "difference between", "pros and cons", "when to use"]

/-- `detect_task_type`: keyword tallies over the lower-cased
concatenation of recent messages, with fixed bonuses for code
indicators; Python's `if not recent_messages` is true both for `None`
and for an empty list. -/
def detect_task_type (recent_messages : Option (List String)) : TaskType :=
  match recent_messages with
  | none => TaskType.UNKNOWN
  | some msgs =>
    if msgs.isEmpty then TaskType.UNKNOWN
    else
      let combined := (String.intercalate " " msgs).toLower
      let coding_base := (CODING_KEYWORDS.filter fun kw => hasSubstr combined kw).length
      let planning_score := (PLANNING_KEYWORDS.filter fun kw => hasSubstr combined kw).length
      let coding_score := coding_base +
        (if hasSubstr combined ".py" || hasSubstr combined ".js" ||
            hasSubstr combined ".ts" then 2 else 0) +
        (if hasSubstr combined "```" then 2 else 0) +
        (if hasSubstr combined "/" &&
            (hasSubstr combined "src/" || hasSubstr combined "lib/") then 1 else 0)
      if coding_score > planning_score + 1 then TaskType.CODING
      else if planning_score > coding_score + 1 then TaskType.PLANNING
      else TaskType.UNKNOWN

/-- `_format_time`: minutes to a human-readable string. `int(minutes // 60)`
and `int(minutes % 60)` both floor for the non-negative values reached
here. -/
def format_time (minutes : ℚ) : String :=
  if minutes < 1 then "< 1m"
  else
    if (⌊minutes / 60⌋ : ℤ) > 0 then
      toString (⌊minutes / 60⌋ : ℤ) ++ "h " ++
        toString (⌊minutes - 60 * (⌊minutes / 60⌋ : ℤ)⌋ : ℤ) ++ "m"
    else toString (⌊minutes - 60 * (⌊minutes / 60⌋ : ℤ)⌋ : ℤ) ++ "m"

/-- Python's `:.0f` float format on a rational: round to the nearest
integer, ties to even, and print it. -/
def format0f (q : ℚ) : String :=
  if q - ⌊q⌋ < 1 / 2 then toString (⌊q⌋ : ℤ)
  else if 1 / 2 < q - ⌊q⌋ then toString ((⌊q⌋ : ℤ) + 1)
  else if (⌊q⌋ : ℤ) % 2 = 0 then toString (⌊q⌋ : ℤ)
  else toString ((⌊q⌋ : ℤ) + 1)

/-- Python `dict.get(key, default)` over an association list. -/
def dictGet (d : List (String × ℚ)) (k : String) (dflt : ℚ) : ℚ :=
  match d.find? (fun p => p.1 == k) with
  | some p => p.2
  | none => dflt

/-- `get_primary_guidance`: the nine-rule priority cascade. The unused
`top_contributors` parameter of the Python signature is omitted. -/
def get_primary_guidance (usage_percentage burn_rate : ℚ)
    (model_distribution : List (String × ℚ)) (minutes_to_reset : ℚ)
    (current_model : String) (recent_messages : Option (List String)) :
    Guidance :=
  let opus_pct := dictGet model_distribution "opus" 0
  let time_str := format_time minutes_to_reset
  let task_type := detect_task_type recent_messages
  if usage_percentage ≥ 90 then
    { primary := "You\x27re almost at your limit. Focus on finishing your current task."
      context := none
      urgency := "urgent"
      interactive := true
      suggested_model := none
      action_prompt := some "Run /compact?"
      action_command := some "compact" }
  else if burn_rate > 100 ∧ usage_percentage ≥ 70 then
    { primary := "Using tokens quickly at " ++ format0f usage_percentage ++
        "%. Consider wrapping up."
      context := none
      urgency := "urgent"
      interactive := true
      suggested_model := none
      action_prompt := some "Run /compact?"
      action_command := some "compact" }
  else if task_type = TaskType.PLANNING ∧
      hasSubstr current_model.toLower "opus" = true ∧ opus_pct > 40 then
    { primary := "You\x27re using Opus for planning/questions."
      context := some "Sonnet handles research and planning well at lower cost."
      urgency := "normal"
      interactive := true
      suggested_model := some "sonnet"
      action_prompt := some "Switch to Sonnet?"
      action_command := some "model sonnet" }
  else if task_type = TaskType.CODING ∧
      ¬ hasSubstr current_model.toLower "opus" = true ∧
      usage_percentage < 70 then
    { primary := "This looks like a coding task."
      context := some "Opus excels at complex implementation work."
      urgency := "normal"
      interactive := true
      suggested_model := some "opus"
      action_prompt := some "Switch to Opus?"
      action_command := some "model opus" }
  else if opus_pct > 60 ∧ usage_percentage ≥ 50 then
    { primary := "Opus is handling " ++ format0f opus_pct ++
        "% of your work. Sonnet is often sufficient and more economical."
      context := none
      urgency := "normal"
      interactive := true
      suggested_model := none
      action_prompt := some "Switch to Sonnet?"
      action_command := some "model sonnet" }
  else if usage_percentage ≥ 75 then
    { primary := "Running low on tokens. Resets in " ++ time_str ++ "."
      context := none
      urgency := "normal"
      interactive := true
      suggested_model := none
      action_prompt := some "Run /compact?"
      action_command := some "compact" }
  else if burn_rate > 150 then
    { primary := "High token velocity. Normal if you\x27re in a complex task."
      context := none
      urgency := "calm"
      interactive := false
      suggested_model := none
      action_prompt := none
      action_command := none }
  else if usage_percentage ≥ 50 then
    { primary := "Halfway through your window. You\x27re pacing well."
      context := none
      urgency := "calm"
      interactive := false
      suggested_model := none
      action_prompt := none
      action_command := none }
  else
    { primary := "You\x27re in good shape."
      context := none
      urgency := "calm"
      interactive := false
      suggested_model := none
      action_prompt := none
      action_command := none }

/-- C6: at usage ≥ 90% the cascade returns exactly the rule-1 guidance
— urgency "urgent", interactive, the compact action — for every burn
rate, model distribution, time to reset, current model and recent
messages. -/
theorem guidance_rule_one_precedence (usage_percentage burn_rate : ℚ)
    (model_distribution : List (String × ℚ)) (minutes_to_reset : ℚ)
    (current_model : String) (recent_messages : Option (List String))
    (h : usage_percentage ≥ 90) :
    get_primary_guidance usage_percentage burn_rate model_distribution
        minutes_to_reset current_model recent_messages =
      { primary := "You\x27re almost at your limit. Focus on finishing your current task."
        context := none
        urgency := "urgent"
        interactive := true
        suggested_model := none
        action_prompt := some "Run /compact?"
        action_command := some "compact" } := by
  simp only [get_primary_guidance]
  rw [if_pos h]

/-- Witness for `guidance_rule_one_precedence`: the spec's probe at
usage 95%, burn rate 10, empty distribution. -/
theorem guidance_rule_one_precedence_witness :
    get_primary_guidance 95 10 [] 60 "opus" none =
      { primary := "You\x27re almost at your limit. Focus on finishing your current task."
        context := none
        urgency := "urgent"
        interactive := true
        suggested_model := none
        action_prompt := some "Run /compact?"
        action_command := some "compact" } :=
  guidance_rule_one_precedence 95 10 [] 60 "opus" none (by norm_num)

/-- C10: every guidance produced by the cascade has urgency "calm",
"normal" or "urgent", and whenever it is interactive both the action
prompt and the action command are present. -/
theorem guidance_urgency_invariant (u b : ℚ) (md : List (String × ℚ))
    (m : ℚ) (cm : String) (rm : Option (List String)) :
    ((get_primary_guidance u b md m cm rm).urgency = "calm" ∨
      (get_primary_guidance u b md m cm rm).urgency = "normal" ∨
      (get_primary_guidance u b md m cm rm).urgency = "urgent") ∧
    ((get_primary_guidance u b md m cm rm).interactive = true →
      (get_primary_guidance u b md m cm rm).action_prompt ≠ none ∧
      (get_primary_guidance u b md m cm rm).action_command ≠ none) := by
  simp only [get_primary_guidance]
  split_ifs <;> simp

/-- Witness for `guidance_urgency_invariant`: at usage 95% the returned
guidance is interactive, so the theorem yields its prompt and command. -/
theorem guidance_urgency_invariant_witness :
    (get_primary_guidance 95 10 [] 60 "opus" none).action_prompt ≠ none ∧
      (get_primary_guidance 95 10 [] 60 "opus" none).action_command ≠ none :=
  (guidance_urgency_invariant 95 10 [] 60 "opus" none).2
    (by norm_num [get_primary_guidance])

/-! ## ActionState (src/pacman/terminal/input_handler.py) and the
action-pending update in `SimpleDisplayComponent.render`
(src/pacman/ui/simple_display.py) -/

/-- `ActionState`: the pending action and the set of commands dismissed
this session (modelled as a duplicate-free list). -/
structure ActionState where
  current_action : Option String
  dismissed_actions : List String
  deriving DecidableEq, Repr

/-- A freshly constructed `ActionState()`. -/
def initialAction : ActionState := ⟨none, []⟩

/-- `ActionState.set_action`. -/
def set_action (s : ActionState) (action : Option String) : ActionState :=
  ⟨action, s.dismissed_actions⟩

/-- `ActionState.dismiss_current`. Python's `if self.current_action:`
is false both for `None` and for the empty string. -/
def dismiss_current (s : ActionState) : ActionState :=
  match s.current_action with
  | some a => if a.isEmpty then s else ⟨none, s.dismissed_actions.insert a⟩
  | none => s

/-- `ActionState.is_dismissed`. -/
def is_dismissed (s : ActionState) (action : String) : Bool :=
  s.dismissed_actions.contains action

/-- `ActionState.clear_action`. -/
def clear_action (s : ActionState) : ActionState :=
  ⟨none, s.dismissed_actions⟩

/-- Python truthiness of an optional string. -/
def strTruthy : Option String → Bool
  | none => false
  | some s => !s.isEmpty

/-- The `show_action` update at the end of
`SimpleDisplayComponent.render`: when the guidance has a truthy prompt
and command, is interactive, and its command is not dismissed, the
command becomes the pending action; otherwise the pending action is
cleared. -/
def render_action_update (s : ActionState) (g : Guidance) : ActionState :=
  if strTruthy g.action_prompt && g.interactive && strTruthy g.action_command
      && !(match g.action_command with
           | some c => is_dismissed s c
           | none => false) then
    set_action s g.action_command
  else
    clear_action s

/-- C7: starting fresh, showing a guidance with command `X`, declining
it, then showing the same guidance again leaves no pending action, while
showing a guidance with a distinct, never-dismissed command `Y` sets `Y`
pending. -/
theorem action_dismissal_persists (gX gY : Guidance) (X Y : String)
    (hX : gX.action_command = some X) (hXi : gX.interactive = true)
    (hXp : strTruthy gX.action_prompt = true)
    (hXt : strTruthy gX.action_command = true)
    (hY : gY.action_command = some Y) (hYi : gY.interactive = true)
    (hYp : strTruthy gY.action_prompt = true)
    (hYt : strTruthy gY.action_command = true)
    (hXY : Y ≠ X) :
    (render_action_update
        (dismiss_current (render_action_update initialAction gX))
        gX).current_action = none ∧
    (render_action_update
        (dismiss_current (render_action_update initialAction gX))
        gY).current_action = some Y := by
  have hXe : X.isEmpty = false := by
    rw [hX] at hXt
    simpa [strTruthy] using hXt
  have hs1 : render_action_update initialAction gX = ⟨some X, []⟩ := by
    unfold render_action_update
    rw [if_pos]
    · rw [set_action, hX]; rfl
    · rw [hXp, hXi, hXt, hX]
      simp [is_dismissed, initialAction]
  have hs2 : dismiss_current (⟨some X, []⟩ : ActionState) = ⟨none, [X]⟩ := by
    unfold dismiss_current
    simp [hXe, List.insert]
  rw [hs1, hs2]
  constructor
  · unfold render_action_update
    rw [if_neg]
    · rfl
    · rw [hX]
      simp [is_dismissed]
  · unfold render_action_update
    rw [if_pos]
    · rw [set_action, hY]
    · rw [hYp, hYi, hYt, hY]
      simp [is_dismissed, hXY]

/-- Witness for `action_dismissal_persists`: the compact suggestion is
declined and stays away, while the model-switch suggestion still goes
pending. -/
theorem action_dismissal_persists_witness :
    (render_action_update
        (dismiss_current (render_action_update initialAction
          ⟨"a", none, "urgent", true, none, some "Run /compact?", some "compact"⟩))
        ⟨"a", none, "urgent", true, none, some "Run /compact?", some "compact"⟩).current_action
        = none ∧
    (render_action_update
        (dismiss_current (render_action_update initialAction
          ⟨"a", none, "urgent", true, none, some "Run /compact?", some "compact"⟩))
        ⟨"b", none, "normal", true, some "sonnet", some "Switch to Sonnet?",
          some "model sonnet"⟩).current_action = some "model sonnet" :=
  action_dismissal_persists
    ⟨"a", none, "urgent", true, none, some "Run /compact?", some "compact"⟩
    ⟨"b", none, "normal", true, some "sonnet", some "Switch to Sonnet?",
      some "model sonnet"⟩
    "compact" "model sonnet" rfl rfl rfl rfl rfl rfl rfl rfl (by decide)

/-! ## SessionCalculator (src/claude_monitor/ui/display_controller.py)

Timestamps are rational minutes on a single UTC scale, so
`timedelta(hours=5)` is `5 * 60` minutes and datetime subtraction is
rational subtraction. The `start_time_str` / `end_time_str` session
fields are modelled as already parsed (`none` when absent, empty or
malformed, per the fallback policy); parsing itself lives in the
external `TimezoneHandler` collaborator. -/

/-- The dictionary returned by `calculate_time_data`. -/
structure TimeData where
  start_time : Option ℚ
  reset_time : ℚ
  minutes_to_reset : ℚ
  total_session_minutes : ℚ
  elapsed_session_minutes : ℚ
  deriving DecidableEq, Repr

/-- The `reset_time` computation in `calculate_time_data`: the parsed
end time if present, else start (or now) plus the 5-hour default. -/
def resetTimeOf (start_time end_time : Option ℚ) (current_time : ℚ) : ℚ :=
  match end_time with
  | some e => e
  | none =>
      match start_time with
      | some st => st + 5 * 60
      | none => current_time + 5 * 60

/-- `SessionCalculator.calculate_time_data`. -/
def calculate_time_data (start_time end_time : Option ℚ) (current_time : ℚ) :
    TimeData :=
  match start_time, end_time with
  | some st, some _ =>
      ⟨start_time, resetTimeOf start_time end_time current_time,
        resetTimeOf start_time end_time current_time - current_time,
        resetTimeOf start_time end_time current_time - st,
        max 0 (current_time - st)⟩
  | _, _ =>
      ⟨start_time, resetTimeOf start_time end_time current_time,
        resetTimeOf start_time end_time current_time - current_time,
        5 * 60,
        max 0 (5 * 60 - (resetTimeOf start_time end_time current_time - current_time))⟩

/-- The dictionary returned by `calculate_cost_predictions`. -/
structure CostData where
  cost_per_minute : ℚ
  cost_limit : ℚ
  cost_remaining : ℚ
  predicted_end_time : ℚ
  deriving DecidableEq, Repr

/-- `SessionCalculator.calculate_cost_predictions`:
`elapsed_session_minutes` comes from the time data, `session_cost` from
the session data, `reset_time` from the time data, and `current_time`
is `datetime.now(timezone.utc)` at the call. -/
def calculate_cost_predictions (elapsed_session_minutes session_cost : ℚ)
    (cost_limit : Option ℚ) (reset_time current_time : ℚ) : CostData :=
  let cost_per_minute :=
    if elapsed_session_minutes > 0 then
      session_cost / max 1 elapsed_session_minutes
    else 0
  let limit := match cost_limit with | some l => l | none => 100
  let cost_remaining := max 0 (limit - session_cost)
  if cost_per_minute > 0 ∧ cost_remaining > 0 then
    ⟨cost_per_minute, limit, cost_remaining,
      current_time + cost_remaining / cost_per_minute⟩
  else
    ⟨cost_per_minute, limit, cost_remaining, reset_time⟩

/-- C4: the predicted exhaustion instant is the reset time whenever the
computed rate is ≤ 0 or the remaining capacity (ceiling minus cost) is
≤ 0, and otherwise it is now plus remaining capacity over the rate. -/
theorem cost_prediction_exhaustion (elapsed session_cost limit reset now : ℚ) :
    (((calculate_cost_predictions elapsed session_cost (some limit) reset
          now).cost_per_minute ≤ 0 ∨ limit - session_cost ≤ 0) →
      (calculate_cost_predictions elapsed session_cost (some limit) reset
          now).predicted_end_time = reset) ∧
    (0 < (calculate_cost_predictions elapsed session_cost (some limit) reset
          now).cost_per_minute →
      0 < limit - session_cost →
      (calculate_cost_predictions elapsed session_cost (some limit) reset
          now).predicted_end_time =
        now + (limit - session_cost) /
          (calculate_cost_predictions elapsed session_cost (some limit) reset
            now).cost_per_minute) := by
  simp only [calculate_cost_predictions]
  generalize (if elapsed > 0 then session_cost / max 1 elapsed else 0) = r
  split_ifs with hc
  · constructor
    · intro h
      exfalso
      rcases h with h | h
      · exact absurd hc.1 (not_lt.mpr h)
      · rcases lt_max_iff.mp hc.2 with h2 | h2
        · exact lt_irrefl 0 h2
        · linarith
    · intro _ h2
      show now + max 0 (limit - session_cost) / r =
        now + (limit - session_cost) / r
      rw [max_eq_right h2.le]
  · constructor
    · intro _; rfl
    · intro h1 h2
      exact absurd ⟨h1, lt_max_iff.mpr (Or.inr h2)⟩ hc

/-- Witness for `cost_prediction_exhaustion`: with elapsed 0 the rate is
0 and the prediction falls back to the reset time; with elapsed 10,
cost 5 and ceiling 100 the prediction is now plus remaining over rate. -/
theorem cost_prediction_exhaustion_witness :
    (calculate_cost_predictions 0 5 (some 100) 500 400).predicted_end_time
        = 500 ∧
    (calculate_cost_predictions 10 5 (some 100) 500 400).predicted_end_time =
      400 + (100 - 5) /
        (calculate_cost_predictions 10 5 (some 100) 500 400).cost_per_minute :=
  ⟨(cost_prediction_exhaustion 0 5 100 500 400).1
      (Or.inl (by norm_num [calculate_cost_predictions])),
   (cost_prediction_exhaustion 10 5 100 500 400).2
      (by norm_num [calculate_cost_predictions]) (by norm_num)⟩

/-- The computed rate, extracted from the returned record. -/
lemma cost_per_minute_eq (elapsed session_cost : ℚ) (cost_limit : Option ℚ)
    (reset now : ℚ) :
    (calculate_cost_predictions elapsed session_cost cost_limit reset
        now).cost_per_minute =
      if elapsed > 0 then session_cost / max 1 elapsed else 0 := by
  simp only [calculate_cost_predictions]
  split_ifs <;> rfl

/-- C5 counterexample: at session cost 5 and elapsed time 0 the code
computes a rate of 0, whereas c / max(1, e) = 5 / max(1, 0) = 5 — the
claimed formula does not determine the rate at e = 0. -/
theorem cost_rate_floor_cex :
    (calculate_cost_predictions 0 5 (some 100) 500 400).cost_per_minute = 0 ∧
      (5 : ℚ) / max 1 (0 : ℚ) = 5 ∧ (0 : ℚ) ≠ 5 :=
  ⟨by norm_num [calculate_cost_predictions], by norm_num, by norm_num⟩

/-- C5 amended: for elapsed time e > 0 the computed rate is
c / max(1, e) — in particular it equals c for 0 < e < 1 — while at
e = 0 the rate is 0 (the `elapsed_minutes > 0` guard precedes the
floored division). -/
theorem cost_rate_floor_amended :
    (∀ (c e lim reset now : ℚ), 0 < e →
      (calculate_cost_predictions e c (some lim) reset now).cost_per_minute =
        c / max 1 e) ∧
    (∀ (c e lim reset now : ℚ), 0 < e → e < 1 →
      (calculate_cost_predictions e c (some lim) reset now).cost_per_minute =
        c) ∧
    (∀ (c lim reset now : ℚ),
      (calculate_cost_predictions 0 c (some lim) reset now).cost_per_minute =
        0) := by
  refine ⟨?_, ?_, ?_⟩
  · intro c e lim reset now he
    rw [cost_per_minute_eq, if_pos he]
  · intro c e lim reset now he he1
    rw [cost_per_minute_eq, if_pos he, max_eq_left he1.le, div_one]
  · intro c lim reset now
    rw [cost_per_minute_eq]
    norm_num

/-- Witness for `cost_rate_floor_amended` at e = 2 (rate 3 = 6/2),
e = 1/2 (rate equals the cost 7), and e = 0 (rate 0). -/
theorem cost_rate_floor_amended_witness :
    (calculate_cost_predictions 2 6 (some 100) 0 0).cost_per_minute =
        6 / max 1 (2 : ℚ) ∧
      (calculate_cost_predictions (1 / 2) 7 (some 100) 0 0).cost_per_minute
        = 7 ∧
      (calculate_cost_predictions 0 9 (some 100) 0 0).cost_per_minute = 0 :=
  ⟨cost_rate_floor_amended.1 6 2 100 0 0 (by norm_num),
   cost_rate_floor_amended.2.1 7 (1 / 2) 100 0 0 (by norm_num) (by norm_num),
   cost_rate_floor_amended.2.2 9 100 0 0⟩

/-- C8: a window starting at T and ending at T + 300 minutes, observed
at T + 150 minutes, yields elapsed 150, minutes-to-reset 150 and total
300; and the elapsed value is never negative for any inputs. -/
theorem time_data_example_and_clamp :
    (∀ T : ℚ, calculate_time_data (some T) (some (T + 300)) (T + 150) =
      ⟨some T, T + 300, 150, 300, 150⟩) ∧
    (∀ (st en : Option ℚ) (now : ℚ),
      0 ≤ (calculate_time_data st en now).elapsed_session_minutes) := by
  constructor
  · intro T
    simp only [calculate_time_data, resetTimeOf]
    rw [TimeData.mk.injEq]
    refine ⟨rfl, rfl, by ring, by ring, ?_⟩
    rw [show T + 150 - T = (150 : ℚ) by ring]
    norm_num
  · intro st en now
    cases st <;> cases en <;>
      simp only [calculate_time_data] <;> exact le_max_left 0 _

/-! ## PacManBorder (src/claude_monitor/ui/display_controller.py) -/

/-- The animation state of `PacManBorder`: constructor arguments plus
the detected TTY flag, `_position` and `_mouth_open`. -/
structure PacManBorder where
  width : ℕ
  height : ℕ
  no_motion : Bool
  is_tty : Bool
  position : ℕ
  mouth_open : Bool
  deriving DecidableEq, Repr

/-- `self._perimeter = 2 * (width - 2) + 2 * (height - 2)`. -/
def perimeter (s : PacManBorder) : ℕ :=
  2 * (s.width - 2) + 2 * (s.height - 2)

/-- `PacManBorder.advance`: a no-op when motion is suppressed or stdout
is not a TTY; otherwise step the position modulo the perimeter and
toggle the mouth. -/
def advance (s : PacManBorder) : PacManBorder :=
  if s.no_motion || !s.is_tty then s
  else ⟨s.width, s.height, s.no_motion, s.is_tty,
    (s.position + 1) % perimeter s, !s.mouth_open⟩

lemma advance_noop {s : PacManBorder} (h : (s.no_motion || !s.is_tty) = true) :
    advance s = s := by
  unfold advance
  rw [if_pos h]

/-- One live step of the animation. -/
lemma advance_motion (s : PacManBorder) (hm : s.no_motion = false)
    (ht : s.is_tty = true) :
    advance s = ⟨s.width, s.height, false, true,
      (s.position + 1) % perimeter s, !s.mouth_open⟩ := by
  unfold advance
  rw [hm, ht]
  simp

/-- Closed form of the animation under motion: position advances modulo
the perimeter and the mouth phase follows the step parity. -/
lemma advance_iterate (s : PacManBorder) (hm : s.no_motion = false)
    (ht : s.is_tty = true) (hpos : s.position < perimeter s) :
    ∀ k, advance^[k] s =
      ⟨s.width, s.height, s.no_motion, s.is_tty,
        (s.position + k) % perimeter s,
        if k % 2 = 0 then s.mouth_open else !s.mouth_open⟩ := by
  intro k
  induction k with
  | zero =>
    simp [Nat.mod_eq_of_lt hpos]
  | succ k ih =>
    rw [Function.iterate_succ_apply', ih,
      advance_motion ⟨s.width, s.height, s.no_motion, s.is_tty,
        (s.position + k) % perimeter s,
        if k % 2 = 0 then s.mouth_open else !s.mouth_open⟩ hm ht]
    rw [PacManBorder.mk.injEq]
    refine ⟨rfl, rfl, hm.symm, ht.symm, ?_, ?_⟩
    · show ((s.position + k) % perimeter s + 1) % perimeter s =
        (s.position + (k + 1)) % perimeter s
      rw [Nat.mod_add_mod, Nat.add_assoc]
    · show (!(if k % 2 = 0 then s.mouth_open else !s.mouth_open)) =
        (if (k + 1) % 2 = 0 then s.mouth_open else !s.mouth_open)
      rcases Nat.even_or_odd k with he | ho
      · have h0 : k % 2 = 0 := Nat.even_iff.mp he
        rw [if_pos h0, if_neg (by omega)]
      · have h0 : k % 2 = 1 := Nat.odd_iff.mp ho
        rw [if_neg (by omega), if_pos (by omega), Bool.not_not]

/-- C9: advancing the border exactly `perimeter` times returns both the
position and the mouth phase to their initial values, both when motion
is live (the perimeter is even and the position cycles) and when
`advance` is a no-op. -/
theorem pacman_border_period (s : PacManBorder)
    (h : s.position < perimeter s ∨ (s.no_motion || !s.is_tty) = true) :
    (advance^[perimeter s] s).position = s.position ∧
      (advance^[perimeter s] s).mouth_open = s.mouth_open := by
  by_cases hstop : (s.no_motion || !s.is_tty) = true
  · rw [Function.iterate_fixed (advance_noop hstop)]
    exact ⟨rfl, rfl⟩
  · have hpos : s.position < perimeter s := by
      rcases h with h | h
      · exact h
      · exact absurd h hstop
    have hm : s.no_motion = false := by
      rcases Bool.eq_false_or_eq_true s.no_motion with h' | h'
      · exact absurd (by rw [h']; rfl) hstop
      · exact h'
    have ht : s.is_tty = true := by
      rcases Bool.eq_false_or_eq_true s.is_tty with h' | h'
      · exact h'
      · exact absurd (by rw [h']; simp) hstop
    rw [advance_iterate s hm ht hpos (perimeter s)]
    constructor
    · show (s.position + perimeter s) % perimeter s = s.position
      rw [Nat.add_mod_right, Nat.mod_eq_of_lt hpos]
    · show (if perimeter s % 2 = 0 then s.mouth_open else !s.mouth_open) =
        s.mouth_open
      rw [if_pos (by unfold perimeter; omega)]

/-- Witness for `pacman_border_period`: a 3×3 border (perimeter 4) with
motion live returns to position 0, mouth open, after 4 advances. -/
theorem pacman_border_period_witness :
    (advance^[perimeter ⟨3, 3, false, true, 0, true⟩]
        (⟨3, 3, false, true, 0, true⟩ : PacManBorder)).position =
      (⟨3, 3, false, true, 0, true⟩ : PacManBorder).position ∧
    (advance^[perimeter ⟨3, 3, false, true, 0, true⟩]
        (⟨3, 3, false, true, 0, true⟩ : PacManBorder)).mouth_open =
      (⟨3, 3, false, true, 0, true⟩ : PacManBorder).mouth_open :=
  pacman_border_period ⟨3, 3, false, true, 0, true⟩
    (Or.inl (by norm_num [perimeter]))

/-! ## Notification latch
(`DisplayController._check_notifications` together with
`claude_monitor.utils.notifications.NotificationManager`)

`NotificationManager` lives in `claude_monitor/utils/notifications.py`,
which is not among the sources here — only its caller
`_check_notifications` is. Its per-condition behaviour is modelled from
the spec. -/

/-- Modelled from the spec: the missing
`NotificationManager.should_notify` / `mark_notified` /
`is_notification_active` triple behaves, per condition, as an
edge-triggered latch — armed → fired on the predicate becoming true
while armed, fired → armed only when the predicate becomes false. The
`Bool` state is "fired"; the result is (fires-now, new state), where
fires-now marks the one evaluation cycle allowed to run the first-time
side effect. -/
def latchStep (pred : Bool) (fired : Bool) : Bool × Bool :=
  (pred && !fired, pred)

/-- The three latch states held by the notification manager, keyed by
the condition names used in `_check_notifications`. -/
structure NotifState where
  switch_to_custom : Bool
  exceed_max_limit : Bool
  cost_will_exceed : Bool
  deriving DecidableEq, Repr

/-- `switch_condition = token_limit > original_limit`. -/
def switch_condition (token_limit original_limit : ℤ) : Bool :=
  decide (token_limit > original_limit)

/-- `exceed_condition = session_cost > cost_limit`. -/
def exceed_condition (session_cost cost_limit : ℚ) : Bool :=
  decide (session_cost > cost_limit)

/-- `run_out_condition = predicted_end_time < reset_time`. -/
def run_out_condition (predicted_end_time reset_time : ℚ) : Bool :=
  decide (predicted_end_time < reset_time)

/-- One evaluation cycle of `DisplayController._check_notifications`
over the spec-modelled manager: per condition, the first component is
the first-time transition (the branch that calls `mark_notified`), the
second is the `show_*` flag handed to the renderer (just-fired, or
still-active while the condition holds), and the third is the updated
manager state. -/
def check_notifications (token_limit original_limit : ℤ)
    (session_cost cost_limit : ℚ) (predicted_end_time reset_time : ℚ)
    (m : NotifState) :
    (Bool × Bool × Bool) × (Bool × Bool × Bool) × NotifState :=
  ((((latchStep (switch_condition token_limit original_limit)
        m.switch_to_custom).1),
    ((latchStep (exceed_condition session_cost cost_limit)
        m.exceed_max_limit).1),
    ((latchStep (run_out_condition predicted_end_time reset_time)
        m.cost_will_exceed).1)),
   (((latchStep (switch_condition token_limit original_limit)
        m.switch_to_custom).1 ||
      (switch_condition token_limit original_limit && m.switch_to_custom)),
    ((latchStep (exceed_condition session_cost cost_limit)
        m.exceed_max_limit).1 ||
      (exceed_condition session_cost cost_limit && m.exceed_max_limit)),
    ((latchStep (run_out_condition predicted_end_time reset_time)
        m.cost_will_exceed).1 ||
      (run_out_condition predicted_end_time reset_time && m.cost_will_exceed))),
   ⟨(latchStep (switch_condition token_limit original_limit)
        m.switch_to_custom).2,
    (latchStep (exceed_condition session_cost cost_limit)
        m.exceed_max_limit).2,
    (latchStep (run_out_condition predicted_end_time reset_time)
        m.cost_will_exceed).2⟩)

/-- The latch state entering cycle `n`, for one condition whose
predicate values over the evaluation cycles are `p`. -/
def latchState (st0 : Bool) (p : ℕ → Bool) : ℕ → Bool
  | 0 => st0
  | n + 1 => (latchStep (p n) (latchState st0 p n)).2

/-- Whether the first-time side effect fires at cycle `n`. -/
def latchFires (st0 : Bool) (p : ℕ → Bool) (n : ℕ) : Bool :=
  (latchStep (p n) (latchState st0 p n)).1

/-- After any cycle with a true predicate, the latch is fired, so the
next cycle cannot fire again. -/
lemma latchFires_succ_of_true {st0 : Bool} {p : ℕ → Bool} {n : ℕ}
    (h : p n = true) : latchFires st0 p (n + 1) = false := by
  unfold latchFires latchStep
  show (p (n + 1) && !(latchStep (p n) (latchState st0 p n)).2) = false
  unfold latchStep
  rw [h]
  simp

/-- C1: for every condition (any predicate trace `p` over evaluation
cycles, covering the three conditions of `_check_notifications`) and
any initial latch state, the first-time side effect fires at most once
per contiguous run of cycles on which the predicate is true — two
distinct cycles inside one true-run never both fire — and it fires
again at the cycle where the predicate turns true after being false. -/
theorem notification_once_per_true_run :
    (∀ (st0 : Bool) (p : ℕ → Bool) (i j k1 k2 : ℕ),
      (∀ k, i ≤ k → k ≤ j → p k = true) →
      i ≤ k1 → k1 < k2 → k2 ≤ j →
      ¬(latchFires st0 p k1 = true ∧ latchFires st0 p k2 = true)) ∧
    (∀ (st0 : Bool) (p : ℕ → Bool) (i : ℕ),
      p i = false → p (i + 1) = true →
      latchFires st0 p (i + 1) = true) := by
  constructor
  · intro st0 p i j k1 k2 hrun hik1 hk12 hk2j h
    have hk2pos : k2 = (k2 - 1) + 1 := by omega
    have hprev : p (k2 - 1) = true := hrun (k2 - 1) (by omega) (by omega)
    have hfalse : latchFires st0 p ((k2 - 1) + 1) = false :=
      latchFires_succ_of_true hprev
    rw [← hk2pos] at hfalse
    rw [hfalse] at h
    exact Bool.false_ne_true h.2
  · intro st0 p i hf ht
    unfold latchFires
    show (p (i + 1) && !(latchStep (p i) (latchState st0 p i)).2) = true
    unfold latchStep
    rw [hf, ht]
    rfl

/-- Concrete predicate trace: true on cycles 0 and 1, false on cycle 2,
true again from cycle 3. -/
def pTrace : ℕ → Bool := fun n => decide (n = 0 ∨ n = 1 ∨ 3 ≤ n)

/-- Witness for `notification_once_per_true_run`: on `pTrace`, cycles 0
and 1 form a true-run and do not both fire, and the false-to-true edge
at cycle 3 fires. -/
theorem notification_once_per_true_run_witness :
    ¬(latchFires false pTrace 0 = true ∧ latchFires false pTrace 1 = true) ∧
      latchFires false pTrace 3 = true :=
  ⟨notification_once_per_true_run.1 false pTrace 0 1 0 1
      (fun k h0 h1 => by interval_cases k <;> rfl)
      (by omega) (by omega) (by omega),
   notification_once_per_true_run.2 false pTrace 2 (by rfl) (by rfl)⟩

end Pacman
